import Mathlib

/-!
Verification of the segment-allocation core of the milvus streaming node.

The repository provides the segment-assign interceptor
(`segment_assign_interceptor.go`) and the tests of the PChannel segment
allocation manager.  The interceptor's dispatch, insert handling, manual
flush handling and recovery loop are embedded below directly from the
source.  The manager itself (`PChannelSegmentAllocManager` and its
partition managers) is not part of the provided sources, so its operations
are modelled from the specification (sections 3, 4.2 and 4.3), each marked
`Modelled from the spec:` in its doc comment.
-/

set_option maxRecDepth 8000

/-- Segment lifecycle states: Pending → Growing → Sealed → Flushed. -/
inductive SegmentState
  | pending
  | growing
  | sealed
  | flushed
  deriving DecidableEq, Repr

/-- Per-segment stat record, mirroring the persisted `SegmentAssignmentStat`. -/
structure SegmentStat where
  maxBinarySize : Nat
  insertedRows : Nat
  insertedBinarySize : Nat
  createTimestamp : Nat
  lastModifiedTimestamp : Nat
  deriving DecidableEq, Repr

/-- A segment owned by a partition manager: identity, state, counters, the
count of outstanding (issued minus acked) assignments, and the transaction
sessions that have written to it. -/
structure Segment where
  segmentID : Nat
  collectionID : Nat
  partitionID : Nat
  state : SegmentState
  stat : SegmentStat
  outstanding : Nat
  txnRefs : List Nat
  deriving DecidableEq, Repr

/-- Association-list lookup keyed by `Nat`. -/
def alookup {α : Type} : List (Nat × α) → Nat → Option α
  | [], _ => none
  | (k, v) :: rest, key => if k = key then some v else alookup rest key

/-- Association-list upsert keyed by `Nat`. -/
def aupdate {α : Type} : List (Nat × α) → Nat → α → List (Nat × α)
  | [], key, v => [(key, v)]
  | (k, w) :: rest, key, v =>
    if k = key then (key, v) :: rest else (k, w) :: aupdate rest key v

/-- Association-list removal keyed by `Nat`. -/
def aremove {α : Type} : List (Nat × α) → Nat → List (Nat × α)
  | [], _ => []
  | (k, w) :: rest, key =>
    if k = key then aremove rest key else (k, w) :: aremove rest key

instance {ε α : Type} [DecidableEq ε] [DecidableEq α] : DecidableEq (Except ε α) := fun x y =>
  match x, y with
  | Except.error a, Except.error b =>
    if h : a = b then isTrue (by subst h; rfl)
    else isFalse (by intro hc; injection hc; contradiction)
  | Except.error _, Except.ok _ => isFalse (by intro hc; exact Except.noConfusion hc)
  | Except.ok _, Except.error _ => isFalse (by intro hc; exact Except.noConfusion hc)
  | Except.ok a, Except.ok b =>
    if h : a = b then isTrue (by subst h; rfl)
    else isFalse (by intro hc; injection hc; contradiction)

/-- Modelled from the spec: the PChannel manager state (§3): the
collection → partitions index, the per-collection fence table, the
last-seen time-tick watermark (time-ticks are monotonic per pchannel,
§5/glossary), the open transaction sessions, the process-wide stats
counters visible to this manager, and the configuration knobs
(`SegmentMaxSize`, `SegmentSealProportion` in hundredths,
`SealPolicyBinlogCounterThreshold`). -/
structure PChannelManager where
  collections : List (Nat × List Nat)
  vchannels : List (Nat × String)
  segments : List Segment
  fences : List (Nat × Nat)
  watermark : Nat
  openTxns : List Nat
  statsBinlog : List (Nat × Nat)
  nextSegmentID : Nat
  cfgMaxBinarySize : Nat
  cfgSealProportionPct : Nat
  cfgBinlogThreshold : Nat
  deriving DecidableEq, Repr

/-- The fence tick recorded for a collection (0 when never fenced). -/
def fenceOf (m : PChannelManager) (cid : Nat) : Nat :=
  (alookup m.fences cid).getD 0

/-- Structure `AssignSegmentRequest` as in the manager API (§6). -/
structure AssignSegmentRequest where
  collectionID : Nat
  partitionID : Nat
  rows : Nat
  binarySize : Nat
  timeTick : Nat
  txnSession : Option Nat
  deriving DecidableEq, Repr

/-- Structure `AssignSegmentResult`: the handle returned to the caller. -/
structure AssignSegmentResult where
  segmentID : Nat
  deriving DecidableEq, Repr

/-- Errors surfaced by `AssignSegment` (§6/§7). -/
inductive AssignError
  | errTimeTickTooOld
  | errTooLargeInsert
  | errFencedAssign
  | errCollectionNotFound
  | errPartitionNotFound
  deriving DecidableEq, Repr

/-- Modelled from the spec: selection of the growing segment that receives
an insert (§4.2): among growing segments of the partition that are not
policy-full and can hold the insert, pick the one with the largest
`InsertedBinarySize`, breaking ties by smallest segment id. -/
def pickSegment (pct cid pid bin : Nat) : List Segment → Option Segment
  | [] => none
  | s :: rest =>
    let r := pickSegment pct cid pid bin rest
    if s.state = SegmentState.growing ∧ s.collectionID = cid ∧ s.partitionID = pid
        ∧ s.stat.insertedBinarySize * 100 < s.stat.maxBinarySize * pct
        ∧ s.stat.insertedBinarySize + bin ≤ s.stat.maxBinarySize then
      match r with
      | none => some s
      | some t =>
        if t.stat.insertedBinarySize < s.stat.insertedBinarySize
            ∨ (t.stat.insertedBinarySize = s.stat.insertedBinarySize
                ∧ s.segmentID < t.segmentID) then
          some s
        else some t
    else r

/-- Operation `addInsert` (§4.1): bump counters and the last-modified timestamp,
increment the outstanding count, record the transaction reference. -/
def addInsert (req : AssignSegmentRequest) (s : Segment) : Segment :=
  { s with
    stat := { s.stat with
      insertedRows := s.stat.insertedRows + req.rows
      insertedBinarySize := s.stat.insertedBinarySize + req.binarySize
      lastModifiedTimestamp := req.timeTick }
    outstanding := s.outstanding + 1
    txnRefs :=
      match req.txnSession with
      | none => s.txnRefs
      | some t => if t ∈ s.txnRefs then s.txnRefs else t :: s.txnRefs }

/-- Mark every growing segment of a partition as sealed (used when no
growing segment can take the insert, §4.2). -/
def sealGrowingOfPartition (cid pid : Nat) (segs : List Segment) : List Segment :=
  segs.map fun s =>
    if s.state = SegmentState.growing ∧ s.collectionID = cid ∧ s.partitionID = pid then
      { s with state := SegmentState.sealed }
    else s

/-- Apply a function to the segment with the given id. -/
def updateSegment (segs : List Segment) (sid : Nat) (f : Segment → Segment) : List Segment :=
  segs.map fun s => if s.segmentID = sid then f s else s

/-- Modelled from the spec: `AssignSegment` (§4.2/§4.3).  Validates that the
collection and partition exist, the time-tick is at least the watermark
(else `ErrTimeTickTooOld`), the time-tick is above the collection fence
(else `ErrFencedAssign`), and the binary size alone does not exceed
`MaxBinarySize` (else `ErrTooLargeInsert`).  Then selects an eligible
growing segment, or seals the partition's exhausted growing segments and
allocates a fresh one; the successful time-tick becomes the new watermark. -/
def AssignSegment (m : PChannelManager) (req : AssignSegmentRequest) :
    Except AssignError (AssignSegmentResult × PChannelManager) :=
  match alookup m.collections req.collectionID with
  | none => Except.error AssignError.errCollectionNotFound
  | some pids =>
    if req.partitionID ∈ pids then
      if req.timeTick < m.watermark then Except.error AssignError.errTimeTickTooOld
      else if req.timeTick ≤ fenceOf m req.collectionID then
        Except.error AssignError.errFencedAssign
      else if m.cfgMaxBinarySize < req.binarySize then
        Except.error AssignError.errTooLargeInsert
      else
        match pickSegment m.cfgSealProportionPct req.collectionID req.partitionID
            req.binarySize m.segments with
        | some s =>
          Except.ok (⟨s.segmentID⟩,
            { m with
              segments := updateSegment m.segments s.segmentID (addInsert req)
              watermark := req.timeTick })
        | none =>
          let fresh : Segment :=
            { segmentID := m.nextSegmentID
              collectionID := req.collectionID
              partitionID := req.partitionID
              state := SegmentState.growing
              stat :=
                { maxBinarySize := m.cfgMaxBinarySize
                  insertedRows := req.rows
                  insertedBinarySize := req.binarySize
                  createTimestamp := req.timeTick
                  lastModifiedTimestamp := req.timeTick }
              outstanding := 1
              txnRefs := req.txnSession.toList }
          Except.ok (⟨m.nextSegmentID⟩,
            { m with
              segments := sealGrowingOfPartition req.collectionID req.partitionID
                  m.segments ++ [fresh]
              nextSegmentID := m.nextSegmentID + 1
              watermark := req.timeTick })
    else Except.error AssignError.errPartitionNotFound

/-- Operation `Ack` of a single assignment result: releases one outstanding reference
of the target segment; counters and state are untouched. -/
def ackOne (m : PChannelManager) (sid : Nat) : PChannelManager :=
  { m with
    segments := updateSegment m.segments sid
      (fun s => { s with outstanding := s.outstanding - 1 }) }

/-- Ack a list of assignment results in order. -/
def ackAll (m : PChannelManager) (sids : List Nat) : PChannelManager :=
  sids.foldl ackOne m

/-- Seal hint passed to `TryToSealSegments` (`stats.SegmentBelongs`). -/
structure SegmentBelongs where
  collectionID : Nat
  partitionID : Nat
  segmentID : Nat
  deriving DecidableEq, Repr

/-- Modelled from the spec: seal-candidate policy (§4.2): capacity-full,
stats-policy (binlog counter at or above the configured threshold), or a
partition named by an explicit hint. -/
def sealPolicy (m : PChannelManager) (hints : List SegmentBelongs) (s : Segment) : Prop :=
  s.stat.maxBinarySize * m.cfgSealProportionPct ≤ s.stat.insertedBinarySize * 100
  ∨ m.cfgBinlogThreshold ≤ (alookup m.statsBinlog s.segmentID).getD 0
  ∨ (∃ h ∈ hints, s.collectionID = h.collectionID ∧ s.partitionID = h.partitionID)

instance (m : PChannelManager) (hints : List SegmentBelongs) (s : Segment) :
    Decidable (sealPolicy m hints s) := by
  unfold sealPolicy
  infer_instance

/-- Mark every growing segment satisfying the seal policy as sealed. -/
def sealByPolicy (m : PChannelManager) (hints : List SegmentBelongs) : PChannelManager :=
  { m with segments := m.segments.map fun s =>
      if s.state = SegmentState.growing ∧ sealPolicy m hints s then
        { s with state := SegmentState.sealed }
      else s }

/-- A sealed segment may flush once it has no outstanding assignment and no
referencing transaction is still open (§4.2). -/
def flushReady (openTxns : List Nat) (s : Segment) : Prop :=
  s.state = SegmentState.sealed ∧ s.outstanding = 0 ∧ ∀ t ∈ s.txnRefs, t ∉ openTxns

instance (openTxns : List Nat) (s : Segment) : Decidable (flushReady openTxns s) := by
  unfold flushReady
  infer_instance

/-- Announce the flush of every sealed segment that is ready. -/
def flushWaited (m : PChannelManager) : PChannelManager :=
  { m with segments := m.segments.map fun s =>
      if flushReady m.openTxns s then { s with state := SegmentState.flushed } else s }

/-- Modelled from the spec: `TryToSealWaitedSegment` (§4.3): re-examines
segments previously marked sealed but deferred for outstanding or
transaction reasons. -/
def TryToSealWaitedSegment (m : PChannelManager) : PChannelManager :=
  flushWaited m

/-- Modelled from the spec: `TryToSealSegments` (§4.3): collects candidates
by policy, marks them sealed, and announces flushes for those ready. -/
def TryToSealSegments (m : PChannelManager) (hints : List SegmentBelongs) : PChannelManager :=
  flushWaited (sealByPolicy m hints)

/-- Query `IsNoWaitSeal` (§4.3): true iff no segment is in the
sealed-but-not-flushed state. -/
def IsNoWaitSeal (m : PChannelManager) : Bool :=
  m.segments.all fun s => decide (s.state ≠ SegmentState.sealed)

/-- The only error `SealAndFenceSegmentUntil` surfaces in the model: the
context was cancelled before the drain completed. -/
inductive SealError
  | deadlineExceeded
  deriving DecidableEq, Repr

/-- Outcome of `SealAndFenceSegmentUntil`: the sealed segment ids, the
error, and the manager state after the call. -/
structure SealOutcome where
  ids : List Nat
  err : Option SealError
  after : PChannelManager
  deriving DecidableEq, Repr

/-- Modelled from the spec: `SealAndFenceSegmentUntil` (§4.3/§5).  Raises
`fence[cid]` to `ts`, seals every pending or growing segment of the
collection whose create timestamp is at most `ts`, then waits for those
segments to flush.  `drainCompletes` says whether the wait finished before
the context was cancelled: when it did not, the call returns an empty id
list and `deadlineExceeded`, but the fence stays raised and the seal marks
stay (the fence is the commitment, the wait is the convenience). -/
def SealAndFenceSegmentUntil (m : PChannelManager) (cid ts : Nat)
    (drainCompletes : Bool) : SealOutcome :=
  let fenced := m.segments.map fun s =>
    if s.collectionID = cid ∧ s.stat.createTimestamp ≤ ts ∧
        (s.state = SegmentState.pending ∨ s.state = SegmentState.growing) then
      { s with state := SegmentState.sealed }
    else s
  let ids := (m.segments.filter fun s =>
    decide (s.collectionID = cid ∧ s.stat.createTimestamp ≤ ts ∧
      (s.state = SegmentState.pending ∨ s.state = SegmentState.growing))).map
    (·.segmentID)
  let m1 : PChannelManager :=
    { m with
      fences := aupdate m.fences cid (max (fenceOf m cid) ts)
      segments := fenced }
  if drainCompletes then
    { ids := ids
      err := none
      after := { m1 with segments := m1.segments.map fun s =>
        if s.collectionID = cid ∧ s.state = SegmentState.sealed then
          { s with state := SegmentState.flushed, outstanding := 0, txnRefs := [] }
        else s } }
  else
    { ids := [], err := some SealError.deadlineExceeded, after := m1 }

/-- Modelled from the spec: `NewCollection` (§4.3): creates the partition
managers for the collection; idempotent. -/
def NewCollection (m : PChannelManager) (cid : Nat) (vchannel : String)
    (partitionIDs : List Nat) : PChannelManager :=
  match alookup m.collections cid with
  | some _ => m
  | none =>
    { m with
      collections := (cid, partitionIDs) :: m.collections
      vchannels := (cid, vchannel) :: m.vchannels }

/-- Modelled from the spec: `NewPartition` (§4.3): requires the collection
to exist; idempotent. -/
def NewPartition (m : PChannelManager) (cid pid : Nat) : PChannelManager :=
  match alookup m.collections cid with
  | none => m
  | some pids =>
    if pid ∈ pids then m
    else { m with collections := aupdate m.collections cid (pids ++ [pid]) }

/-- Modelled from the spec: `RemoveCollection` (§4.3): seals all segments of
the collection, flushes those drained, and deletes the collection entry. -/
def RemoveCollection (m : PChannelManager) (cid : Nat) : PChannelManager :=
  let m1 : PChannelManager :=
    { m with segments := m.segments.map fun s =>
        if s.collectionID = cid ∧
            (s.state = SegmentState.pending ∨ s.state = SegmentState.growing) then
          { s with state := SegmentState.sealed }
        else s }
  let m2 : PChannelManager :=
    { m1 with segments := m1.segments.map fun s =>
        if s.collectionID = cid ∧ flushReady m1.openTxns s then
          { s with state := SegmentState.flushed }
        else s }
  { m2 with
    collections := aremove m2.collections cid
    vchannels := aremove m2.vchannels cid }

/-- Modelled from the spec: `RemovePartition` (§4.3): seals all segments of
the partition, flushes those drained, and deletes the partition entry. -/
def RemovePartition (m : PChannelManager) (cid pid : Nat) : PChannelManager :=
  let m1 : PChannelManager :=
    { m with segments := m.segments.map fun s =>
        if s.collectionID = cid ∧ s.partitionID = pid ∧
            (s.state = SegmentState.pending ∨ s.state = SegmentState.growing) then
          { s with state := SegmentState.sealed }
        else s }
  let m2 : PChannelManager :=
    { m1 with segments := m1.segments.map fun s =>
        if s.collectionID = cid ∧ s.partitionID = pid ∧ flushReady m1.openTxns s then
          { s with state := SegmentState.flushed }
        else s }
  match alookup m2.collections cid with
  | none => m2
  | some pids =>
    { m2 with collections := aupdate m2.collections cid (pids.filter (· ≠ pid)) }

/-- Commit of a transaction session: the session stops being open, so it no
longer blocks the flush of segments that reference it. -/
def commitTxn (m : PChannelManager) (t : Nat) : PChannelManager :=
  { m with openTxns := m.openTxns.erase t }

/-- The segment with the given id, when the manager owns one. -/
def getSeg (m : PChannelManager) (sid : Nat) : Option Segment :=
  m.segments.find? fun s => s.segmentID == sid

/-- The state of the segment with the given id. -/
def stateOfSeg (m : PChannelManager) (sid : Nat) : Option SegmentState :=
  (getSeg m sid).map (·.state)

/-- The transaction references of the segment with the given id. -/
def segTxnRefs (m : PChannelManager) (sid : Nat) : List Nat :=
  ((getSeg m sid).map (·.txnRefs)).getD []

/-- The inserted binary size charged to the segment with the given id. -/
def segInserted (m : PChannelManager) (sid : Nat) : Option Nat :=
  (getSeg m sid).map (·.stat.insertedBinarySize)

/-- The manager state after an assignment attempt (unchanged on error). -/
def assignState (m : PChannelManager)
    (r : Except AssignError (AssignSegmentResult × PChannelManager)) : PChannelManager :=
  match r with
  | Except.ok (_, m1) => m1
  | Except.error _ => m

/-- The segment id granted by an assignment attempt, when it succeeded. -/
def assignID (r : Except AssignError (AssignSegmentResult × PChannelManager)) : Option Nat :=
  match r with
  | Except.ok (a, _) => some a.segmentID
  | Except.error _ => none

/-- The error of an assignment attempt, when it failed. -/
def assignErrOf (r : Except AssignError (AssignSegmentResult × PChannelManager)) :
    Option AssignError :=
  match r with
  | Except.ok _ => none
  | Except.error e => some e

/-- Message types dispatched by the interceptor's `DoAppend`. -/
inductive MessageType
  | createCollection
  | dropCollection
  | createPartition
  | dropPartition
  | insert
  | manualFlush
  | timeTick
  | delete
  | beginTxn
  | commitTxn
  | flush
  deriving DecidableEq, Repr

/-- One partition entry of an insert message header. -/
structure InsertPartition where
  partitionID : Nat
  rows : Nat
  segmentAssignment : Option Nat
  deriving DecidableEq, Repr

/-- The parts of a mutable message the interceptor reads: its type and the
headers of the handled message kinds. -/
structure Message where
  msgType : MessageType
  collectionID : Nat
  createPartitionIDs : List Nat
  partitionID : Nat
  partitions : List InsertPartition
  flushTs : Nat
  timeTick : Nat
  estimateSize : Nat
  vchannel : String
  deriving DecidableEq, Repr

/-- Errors an interceptor handler can return: the redo sentinel, the
unrecoverable too-large-insert status, the inner seal-failure status, a
passed-through assignment error, or the append operation's own failure. -/
inductive InterceptError
  | redo
  | unrecoverable (binarySize : Nat)
  | inner
  | assignErr (e : AssignError)
  | appendErr
  deriving DecidableEq, Repr

/-- The assignment request built by `handleInsertMessage` for one partition
of the insert header: the binary size is the whole message's estimated
size, the time-tick is the message's, the transaction session comes from
the context. -/
def reqForPartition (msg : Message) (p : InsertPartition) (txn : Option Nat) :
    AssignSegmentRequest :=
  { collectionID := msg.collectionID
    partitionID := p.partitionID
    rows := p.rows
    binarySize := msg.estimateSize
    timeTick := msg.timeTick
    txnSession := txn }

/-- The partition loop of `handleInsertMessage`: assign a segment for each
partition in order; on the first failure stop, keeping the assignments
already granted (their acks are deferred to function exit, so they are
returned alongside).  On success, each partition is annotated with its
segment assignment. -/
def insertLoop (msg : Message) (txn : Option Nat) :
    PChannelManager → List InsertPartition →
    (Except AssignError (List InsertPartition)) × PChannelManager × List Nat
  | m, [] => (Except.ok [], m, [])
  | m, p :: rest =>
    match AssignSegment m (reqForPartition msg p txn) with
    | Except.error e => (Except.error e, m, [])
    | Except.ok (r, m1) =>
      match insertLoop msg txn m1 rest with
      | (Except.error e, m2, acks) => (Except.error e, m2, r.segmentID :: acks)
      | (Except.ok ps, m2, acks) =>
        (Except.ok ({ p with segmentAssignment := some r.segmentID } :: ps),
          m2, r.segmentID :: acks)

/-- Handler `handleInsertMessage`: run the partition loop; `ErrTimeTickTooOld`
becomes the redo sentinel, `ErrTooLargeInsert` becomes an unrecoverable
status, other errors pass through; on success the message with overwritten
header goes to the append operation.  The deferred acks of every granted
assignment run at exit on every path — assignments are never rolled back. -/
def handleInsertMessage (m : PChannelManager) (msg : Message)
    (appendOp : Message → Except InterceptError Nat) (txn : Option Nat) :
    (Except InterceptError Nat) × PChannelManager :=
  match insertLoop msg txn m msg.partitions with
  | (Except.error AssignError.errTimeTickTooOld, m1, acks) =>
    (Except.error InterceptError.redo, ackAll m1 acks)
  | (Except.error AssignError.errTooLargeInsert, m1, acks) =>
    (Except.error (InterceptError.unrecoverable msg.estimateSize), ackAll m1 acks)
  | (Except.error e, m1, acks) =>
    (Except.error (InterceptError.assignErr e), ackAll m1 acks)
  | (Except.ok ps, m1, acks) =>
    (appendOp { msg with partitions := ps }, ackAll m1 acks)

/-- Handler `handleManualFlushMessage`: seal and fence the collection up to the
flush timestamp; on failure return an inner error without touching the
extra response.  Otherwise record the sealed ids into the
`ManualFlushExtraResponse` (appending to any previously recorded ids) and,
when this call sealed any segment, return the redo sentinel instead of
appending, so the manual flush message lands after the flush-segment
messages it caused.  The boolean reports whether the append ran. -/
def handleManualFlushMessage (m : PChannelManager) (msg : Message)
    (extra : Option (List Nat)) (appendOp : Message → Except InterceptError Nat)
    (drainCompletes : Bool) :
    (Except InterceptError Nat) × PChannelManager × Option (List Nat) × Bool :=
  let o := SealAndFenceSegmentUntil m msg.collectionID msg.flushTs drainCompletes
  match o.err with
  | some _ => (Except.error InterceptError.inner, o.after, extra, false)
  | none =>
    let extra1 : Option (List Nat) :=
      some (match extra with
        | none => o.ids
        | some l => l ++ o.ids)
    if 0 < o.ids.length then
      (Except.error InterceptError.redo, o.after, extra1, false)
    else
      (appendOp msg, o.after, extra1, true)

/-- Handler `handleCreateCollection`: append first, then set up the partition
managers for the collection. -/
def handleCreateCollection (m : PChannelManager) (msg : Message)
    (appendOp : Message → Except InterceptError Nat) :
    (Except InterceptError Nat) × PChannelManager :=
  match appendOp msg with
  | Except.error e => (Except.error e, m)
  | Except.ok mid =>
    (Except.ok mid, NewCollection m msg.collectionID msg.vchannel msg.createPartitionIDs)

/-- Handler `handleDropCollection`: remove the collection's partition managers,
then append the drop message. -/
def handleDropCollection (m : PChannelManager) (msg : Message)
    (appendOp : Message → Except InterceptError Nat) :
    (Except InterceptError Nat) × PChannelManager :=
  (appendOp msg, RemoveCollection m msg.collectionID)

/-- Handler `handleCreatePartition`: append first, then set up the partition. -/
def handleCreatePartition (m : PChannelManager) (msg : Message)
    (appendOp : Message → Except InterceptError Nat) :
    (Except InterceptError Nat) × PChannelManager :=
  match appendOp msg with
  | Except.error e => (Except.error e, m)
  | Except.ok mid =>
    (Except.ok mid, NewPartition m msg.collectionID msg.partitionID)

/-- Handler `handleDropPartition`: remove the partition manager, then append. -/
def handleDropPartition (m : PChannelManager) (msg : Message)
    (appendOp : Message → Except InterceptError Nat) :
    (Except InterceptError Nat) × PChannelManager :=
  (appendOp msg, RemovePartition m msg.collectionID msg.partitionID)

/-- Dispatch `DoAppend` of the segment interceptor: dispatch on the message type;
any type other than the six handled ones goes straight to the underlying
append operation with the manager and the extra response untouched. -/
def DoAppend (m : PChannelManager) (msg : Message)
    (appendOp : Message → Except InterceptError Nat) (txn : Option Nat)
    (extra : Option (List Nat)) (drainCompletes : Bool) :
    (Except InterceptError Nat) × PChannelManager × Option (List Nat) :=
  match msg.msgType with
  | MessageType.createCollection =>
    let r := handleCreateCollection m msg appendOp
    (r.1, r.2, extra)
  | MessageType.dropCollection =>
    let r := handleDropCollection m msg appendOp
    (r.1, r.2, extra)
  | MessageType.createPartition =>
    let r := handleCreatePartition m msg appendOp
    (r.1, r.2, extra)
  | MessageType.dropPartition =>
    let r := handleDropPartition m msg appendOp
    (r.1, r.2, extra)
  | MessageType.insert =>
    let r := handleInsertMessage m msg appendOp txn
    (r.1, r.2, extra)
  | MessageType.manualFlush =>
    let r := handleManualFlushMessage m msg extra appendOp drainCompletes
    (r.1, r.2.1, r.2.2.1)
  | _ => (appendOp msg, m, extra)

/-- Whether the segment interceptor handles this message type specially. -/
def handledBySegmentInterceptor : MessageType → Bool
  | MessageType.createCollection => true
  | MessageType.dropCollection => true
  | MessageType.createPartition => true
  | MessageType.dropPartition => true
  | MessageType.insert => true
  | MessageType.manualFlush => true
  | _ => false

/-- Modelled from the spec: one step of the `typeutil.BackoffTimer`
configured in `recoverPChannelManager` (initial interval 10 ms, multiplier
2, maximum interval 1 s): the wait before retry number `n`, in
milliseconds. -/
def backoffInterval (n : Nat) : Nat :=
  min (10 * 2 ^ n) 1000

/-- Observable events of the recovery loop: a backoff wait of the given
duration, the registration with the global seal inspector, the publication
of the recovered manager into the future, and the nil publication on
cancellation. -/
inductive RecoverEvent
  | wait (d : Nat)
  | register
  | publish
  | publishNil
  deriving DecidableEq, Repr

/-- The loop of `recoverPChannelManager`: attempt recovery; on failure wait the
backoff interval (or stop with a nil publication when the interceptor's
context is cancelled during the wait) and retry; on success register the
manager with the global seal inspector, then publish it.  `attempts n`
says whether the n-th call to `RecoverPChannelSegmentAllocManager`
succeeds; `cancelAt` is the attempt during whose backoff wait the context
fires; the fuel bounds the unfolding. -/
def recoverLoop (attempts : Nat → Bool) (cancelAt : Option Nat) :
    Nat → Nat → List RecoverEvent
  | 0, _ => []
  | fuel + 1, n =>
    if attempts n then [RecoverEvent.register, RecoverEvent.publish]
    else if cancelAt = some n then [RecoverEvent.publishNil]
    else RecoverEvent.wait (backoffInterval n) :: recoverLoop attempts cancelAt fuel (n + 1)

/-- A recovered segment of the standard test fixture. -/
def fixtureSeg (sid cid pid : Nat) (st : SegmentState) (inserted maxB cts : Nat) : Segment :=
  { segmentID := sid
    collectionID := cid
    partitionID := pid
    state := st
    stat :=
      { maxBinarySize := maxB
        insertedRows := inserted
        insertedBinarySize := inserted
        createTimestamp := cts
        lastModifiedTimestamp := cts }
    outstanding := 0
    txnRefs := [] }

/-- The standard fixture after recovery: collection 1 with partitions
{1,2,3}; segment 1000 was persisted pending and re-announced through the
WAL (whose append returned time-tick 2, the manager's recovery watermark),
the growing segments 2000(1000/1000), 3000(100/1000), 5000(900/1000),
6000(100/1000), and the sealed segment 4000(900/1000); config
`SegmentMaxSize` 1 MB, `SegmentSealProportion` 1.0. -/
def fixtureManager : PChannelManager :=
  { collections := [(1, [1, 2, 3])]
    vchannels := [(1, "v1")]
    segments :=
      [ fixtureSeg 1000 1 1 SegmentState.growing 0 1048576 2
      , fixtureSeg 2000 1 2 SegmentState.growing 1000 1000 1
      , fixtureSeg 3000 1 2 SegmentState.growing 100 1000 1
      , fixtureSeg 4000 1 2 SegmentState.sealed 900 1000 1
      , fixtureSeg 5000 1 2 SegmentState.growing 900 1000 1
      , fixtureSeg 6000 1 3 SegmentState.growing 100 1000 1 ]
    fences := []
    watermark := 2
    openTxns := []
    statsBinlog := []
    nextSegmentID := 7000
    cfgMaxBinarySize := 1048576
    cfgSealProportionPct := 100
    cfgBinlogThreshold := 100 }

/-- The stale request of the fixture test: 100 rows / 100 bytes for
(collection 1, partition 1) at time-tick 1. -/
def staleReq : AssignSegmentRequest :=
  { collectionID := 1
    partitionID := 1
    rows := 100
    binarySize := 100
    timeTick := 1
    txnSession := none }

/-- A manager with collection 1 (partitions 1,2,3) and no segments yet;
config `SegmentMaxSize` 1 MB, `SegmentSealProportion` 1.0. -/
def cleanBase : PChannelManager :=
  { collections := [(1, [1, 2, 3])]
    vchannels := [(1, "v1")]
    segments := []
    fences := []
    watermark := 2
    openTxns := []
    statsBinlog := []
    nextSegmentID := 1
    cfgMaxBinarySize := 1048576
    cfgSealProportionPct := 100
    cfgBinlogThreshold := 100 }

/-- A 1 MB insert request for (collection 1, partition 1). -/
def mbReq (tt : Nat) : AssignSegmentRequest :=
  { collectionID := 1
    partitionID := 1
    rows := 1048576
    binarySize := 1048576
    timeTick := tt
    txnSession := none }

/-- Capacity scenario, step 1: first 1 MB assign. -/
def capA1 : Except AssignError (AssignSegmentResult × PChannelManager) :=
  AssignSegment cleanBase (mbReq 10)

/-- Capacity scenario: state after the first assign. -/
def capM1 : PChannelManager := assignState cleanBase capA1

/-- Capacity scenario, step 2: second 1 MB assign. -/
def capA2 : Except AssignError (AssignSegmentResult × PChannelManager) :=
  AssignSegment capM1 (mbReq 11)

/-- Capacity scenario: state after the second assign. -/
def capM2 : PChannelManager := assignState capM1 capA2

/-- Capacity scenario: state after `TryToSealSegments` before acking. -/
def capM3 : PChannelManager := TryToSealSegments capM2 []

/-- Capacity scenario: state after acking both results. -/
def capM4 : PChannelManager := ackAll capM3 [1, 2]

/-- Capacity scenario: state after `TryToSealWaitedSegment`. -/
def capM5 : PChannelManager := TryToSealWaitedSegment capM4

/-- C3: with `MaxBinarySize` 1 MB and `SealProportion` 1.0, a 1 MB assign
to (collection 1, partition 1) succeeds as result r1 (segment 1); a second
1 MB assign succeeds as result r2 on a new segment (segment 2);
`TryToSealSegments` before acking leaves `IsNoWaitSeal` false; after
acking r1 and r2, `TryToSealWaitedSegment` makes `IsNoWaitSeal` true. -/
theorem capacity_seal_scenario_spec :
    assignID capA1 = some 1 ∧
    assignID capA2 = some 2 ∧
    assignID capA1 ≠ assignID capA2 ∧
    IsNoWaitSeal capM3 = false ∧
    IsNoWaitSeal capM5 = true := by
  decide

/-- Transaction scenario: base state whose transaction session 7 is open. -/
def txnBase : PChannelManager :=
  { cleanBase with openTxns := [7] }

/-- A 1 MB insert request under transaction session 7. -/
def txnReq (tt : Nat) : AssignSegmentRequest :=
  { mbReq tt with txnSession := some 7 }

/-- Transaction scenario: state after the first acked 1 MB insert. -/
def txnM1 : PChannelManager :=
  ackOne (assignState txnBase (AssignSegment txnBase (txnReq 10))) 1

/-- Transaction scenario: state after the second acked 1 MB insert. -/
def txnM2 : PChannelManager :=
  ackOne (assignState txnM1 (AssignSegment txnM1 (txnReq 11))) 2

/-- Transaction scenario: state after the third acked 1 MB insert. -/
def txnM3 : PChannelManager :=
  ackOne (assignState txnM2 (AssignSegment txnM2 (txnReq 12))) 3

/-- Transaction scenario: `TryToSealSegments` with the transaction open. -/
def txnM4 : PChannelManager := TryToSealSegments txnM3 []

/-- Transaction scenario: the transaction commits. -/
def txnM5 : PChannelManager := commitTxn txnM4 7

/-- Transaction scenario: `TryToSealSegments` after the commit. -/
def txnM6 : PChannelManager := TryToSealSegments txnM5 []

/-- Lookup by segment id commutes with mapping a function that preserves
segment ids. -/
theorem find?_map_pres (f : Segment → Segment) (sid : Nat)
    (hf : ∀ s, (f s).segmentID = s.segmentID) :
    ∀ l : List Segment,
      (l.map f).find? (fun s => s.segmentID == sid) =
        ((l.find? (fun s => s.segmentID == sid)).map f)
  | [] => rfl
  | s :: l => by
    cases h : (s.segmentID == sid) with
    | true =>
      rw [List.map_cons,
        @List.find?_cons_of_pos _ (fun s : Segment => s.segmentID == sid) (f s) (l.map f)
          (by simpa [hf] using h),
        @List.find?_cons_of_pos _ (fun s : Segment => s.segmentID == sid) s l h]
      rfl
    | false =>
      rw [List.map_cons,
        @List.find?_cons_of_neg _ (fun s : Segment => s.segmentID == sid) (f s) (l.map f)
          (by simp [hf, h]),
        @List.find?_cons_of_neg _ (fun s : Segment => s.segmentID == sid) s l (by simp [h]),
        find?_map_pres f sid hf l]

/-- Looking up a segment after `sealByPolicy` is looking it up before and
applying the per-segment seal step. -/
theorem getSeg_sealByPolicy (m : PChannelManager) (hints : List SegmentBelongs) (sid : Nat) :
    getSeg (sealByPolicy m hints) sid =
      (getSeg m sid).map (fun s =>
        if s.state = SegmentState.growing ∧ sealPolicy m hints s then
          { s with state := SegmentState.sealed }
        else s) := by
  unfold sealByPolicy getSeg
  exact find?_map_pres _ sid (fun s => by split <;> rfl) m.segments

/-- Looking up a segment after `flushWaited` is looking it up before and
applying the per-segment flush step. -/
theorem getSeg_flushWaited (m : PChannelManager) (sid : Nat) :
    getSeg (flushWaited m) sid =
      (getSeg m sid).map (fun s =>
        if flushReady m.openTxns s then { s with state := SegmentState.flushed } else s) := by
  unfold flushWaited getSeg
  exact find?_map_pres _ sid (fun s => by split <;> rfl) m.segments

/-- C2: a segment referenced by an uncommitted transaction is never driven
to the flushed state by `TryToSealSegments`; concretely, after three 1 MB
inserts under open transaction 7 to (collection 1, partition 1),
`TryToSealSegments` leaves `IsNoWaitSeal` false, and once the transaction
commits, `TryToSealSegments` makes `IsNoWaitSeal` true. -/
theorem txn_blocks_flush_spec :
    (∀ (m : PChannelManager) (hints : List SegmentBelongs) (sid t : Nat),
      t ∈ segTxnRefs m sid → t ∈ m.openTxns →
      stateOfSeg m sid ≠ some SegmentState.flushed →
      stateOfSeg (TryToSealSegments m hints) sid ≠ some SegmentState.flushed) ∧
    IsNoWaitSeal txnM4 = false ∧ IsNoWaitSeal txnM6 = true := by
  refine ⟨?_, by decide, by decide⟩
  intro m hints sid t htref hopen hnf
  cases hg : getSeg m sid with
  | none =>
    rw [segTxnRefs, hg] at htref
    simp at htref
  | some s =>
    have hs : t ∈ s.txnRefs := by
      rw [segTxnRefs, hg] at htref
      simpa using htref
    have hstate : s.state ≠ SegmentState.flushed := by
      rw [stateOfSeg, hg] at hnf
      simpa using hnf
    show stateOfSeg (flushWaited (sealByPolicy m hints)) sid ≠ some SegmentState.flushed
    rw [stateOfSeg, getSeg_flushWaited, getSeg_sealByPolicy, hg]
    have hot : (sealByPolicy m hints).openTxns = m.openTxns := rfl
    rw [hot]
    simp only [Option.map_some']
    by_cases hseal : (s.state = SegmentState.growing ∧ sealPolicy m hints s)
    · rw [if_pos hseal]
      have h2 : ¬ flushReady m.openTxns { s with state := SegmentState.sealed } :=
        fun hfr => (hfr.2.2 t hs) hopen
      rw [if_neg h2]
      simp
    · rw [if_neg hseal]
      have h2 : ¬ flushReady m.openTxns s := fun hfr => (hfr.2.2 t hs) hopen
      rw [if_neg h2]
      simpa using hstate

/-- Witness for C2: in the transaction scenario, segment 1 references the
open transaction 7, and `TryToSealSegments` does not flush it. -/
theorem txn_blocks_flush_spec_witness :
    stateOfSeg (TryToSealSegments txnM3 []) 1 ≠ some SegmentState.flushed :=
  txn_blocks_flush_spec.1 txnM3 [] 1 7 (by decide) (by decide) (by decide)

/-- A fresh manager: no collections, no segments; config as elsewhere. -/
def freshManager : PChannelManager :=
  { collections := []
    vchannels := []
    segments := []
    fences := []
    watermark := 0
    openTxns := []
    statsBinlog := []
    nextSegmentID := 1
    cfgMaxBinarySize := 1048576
    cfgSealProportionPct := 100
    cfgBinlogThreshold := 100 }

/-- The request of the collection-lifecycle test: 100 rows / 200 bytes for
(collection 100, partition 101). -/
def lifecycleReq : AssignSegmentRequest :=
  { collectionID := 100
    partitionID := 101
    rows := 100
    binarySize := 200
    timeTick := 5
    txnSession := none }

/-- Lifecycle scenario: the collection is created. -/
def lifeM1 : PChannelManager := NewCollection freshManager 100 "v1" [101, 102, 103]

/-- Lifecycle scenario: the assignment that now succeeds. -/
def lifeA2 : Except AssignError (AssignSegmentResult × PChannelManager) :=
  AssignSegment lifeM1 lifecycleReq

/-- Lifecycle scenario: state after acking that assignment. -/
def lifeM2 : PChannelManager := ackOne (assignState lifeM1 lifeA2) 1

/-- Lifecycle scenario: the collection is removed again. -/
def lifeM3 : PChannelManager := RemoveCollection lifeM2 100

/-- C8: on a fresh manager, `AssignSegment` for the unknown collection 100
fails with no result; after `NewCollection(100,"v1",{101,102,103})` the
same request succeeds; after `RemoveCollection(100)` it fails again and
`IsNoWaitSeal` is true. -/
theorem collection_lifecycle_spec :
    AssignSegment freshManager lifecycleReq =
      Except.error AssignError.errCollectionNotFound ∧
    assignID (AssignSegment freshManager lifecycleReq) = none ∧
    assignID lifeA2 = some 1 ∧
    AssignSegment lifeM3 lifecycleReq =
      Except.error AssignError.errCollectionNotFound ∧
    assignID (AssignSegment lifeM3 lifecycleReq) = none ∧
    IsNoWaitSeal lifeM3 = true := by
  decide

/-- A successful `AssignSegment` requires a time-tick at least the current
watermark and advances the watermark to exactly that time-tick. -/
theorem assign_ok_watermark {m : PChannelManager} {req : AssignSegmentRequest}
    {a : AssignSegmentResult} {m1 : PChannelManager}
    (h : AssignSegment m req = Except.ok (a, m1)) :
    m.watermark ≤ req.timeTick ∧ m1.watermark = req.timeTick := by
  unfold AssignSegment at h
  split at h
  · exact absurd h (by simp)
  · split at h
    · split at h
      · exact absurd h (by simp)
      · split at h
        · exact absurd h (by simp)
        · split at h
          · exact absurd h (by simp)
          · split at h
            · simp only [Except.ok.injEq, Prod.mk.injEq] at h
              refine ⟨by omega, ?_⟩
              rw [← h.2]
            · simp only [Except.ok.injEq, Prod.mk.injEq] at h
              refine ⟨by omega, ?_⟩
              rw [← h.2]
    · exact absurd h (by simp)

/-- C4: the fixture rejects the stale request (time-tick 1, below the
recovery watermark 2) with `ErrTimeTickTooOld` and no result, and in
general time-ticks across successful `AssignSegment` calls on a manager
are non-decreasing. -/
theorem timetick_monotonic_spec :
    AssignSegment fixtureManager staleReq =
      Except.error AssignError.errTimeTickTooOld ∧
    (∀ (m m1 m2 : PChannelManager) (req1 req2 : AssignSegmentRequest)
      (a1 a2 : AssignSegmentResult),
      AssignSegment m req1 = Except.ok (a1, m1) →
      AssignSegment m1 req2 = Except.ok (a2, m2) →
      req1.timeTick ≤ req2.timeTick) := by
  refine ⟨by decide, ?_⟩
  intro m m1 m2 req1 req2 a1 a2 h1 h2
  have w1 := assign_ok_watermark h1
  have w2 := assign_ok_watermark h2
  omega

/-- Witness for C4: the two successful assigns of the capacity scenario
carry non-decreasing time-ticks. -/
theorem timetick_monotonic_spec_witness : (mbReq 10).timeTick ≤ (mbReq 11).timeTick :=
  timetick_monotonic_spec.2 cleanBase capM1 capM2 (mbReq 10) (mbReq 11) ⟨1⟩ ⟨2⟩
    (by decide) (by decide)

/-- Upserting a key makes the lookup of that key return the new value. -/
theorem alookup_aupdate_self {α : Type} (l : List (Nat × α)) (k : Nat) (v : α) :
    alookup (aupdate l k v) k = some v := by
  induction l with
  | nil => simp [aupdate, alookup]
  | cons hd tl ih =>
    obtain ⟨k1, v1⟩ := hd
    by_cases h : k1 = k
    · subst h
      simp [aupdate, alookup]
    · simp [aupdate, alookup, h, ih]

/-- Operation `AssignSegment` rejects a request whose time-tick does not exceed the
collection's fence with `ErrFencedAssign` (once the earlier collection,
partition and watermark checks pass). -/
theorem assign_fenced {m : PChannelManager} {req : AssignSegmentRequest} {pids : List Nat}
    (hc : alookup m.collections req.collectionID = some pids)
    (hp : req.partitionID ∈ pids)
    (hw : ¬ req.timeTick < m.watermark)
    (hf : req.timeTick ≤ fenceOf m req.collectionID) :
    AssignSegment m req = Except.error AssignError.errFencedAssign := by
  unfold AssignSegment
  simp only [hc]
  rw [if_pos hp, if_neg hw, if_pos hf]

/-- C1: a `SealAndFenceSegmentUntil` call whose context is cancelled before
the drain completes returns an empty segment-id list and the deadline
error, yet leaves the fence for the collection raised to the requested
timestamp, so a subsequent `AssignSegment` for that collection with a
time-tick at most that timestamp fails with `ErrFencedAssign`. -/
theorem fence_raised_on_cancel_spec (m : PChannelManager) (ts : Nat)
    (req : AssignSegmentRequest) (pids : List Nat)
    (hc : alookup m.collections req.collectionID = some pids)
    (hp : req.partitionID ∈ pids)
    (hw : m.watermark ≤ req.timeTick)
    (htt : req.timeTick ≤ ts) :
    (SealAndFenceSegmentUntil m req.collectionID ts false).ids = [] ∧
    (SealAndFenceSegmentUntil m req.collectionID ts false).err =
      some SealError.deadlineExceeded ∧
    ts ≤ fenceOf (SealAndFenceSegmentUntil m req.collectionID ts false).after
      req.collectionID ∧
    AssignSegment (SealAndFenceSegmentUntil m req.collectionID ts false).after req =
      Except.error AssignError.errFencedAssign := by
  have hfences : (SealAndFenceSegmentUntil m req.collectionID ts false).after.fences =
      aupdate m.fences req.collectionID (max (fenceOf m req.collectionID) ts) := rfl
  have hfence : fenceOf (SealAndFenceSegmentUntil m req.collectionID ts false).after
      req.collectionID = max (fenceOf m req.collectionID) ts := by
    unfold fenceOf
    rw [hfences, alookup_aupdate_self]
    rfl
  refine ⟨rfl, rfl, ?_, ?_⟩
  · rw [hfence]
    exact le_max_right _ _
  · have hc1 : alookup (SealAndFenceSegmentUntil m req.collectionID ts false).after.collections
        req.collectionID = some pids := hc
    have hw1 : ¬ req.timeTick <
        (SealAndFenceSegmentUntil m req.collectionID ts false).after.watermark := by
      have hwm : (SealAndFenceSegmentUntil m req.collectionID ts false).after.watermark =
          m.watermark := rfl
      omega
    have hf1 : req.timeTick ≤
        fenceOf (SealAndFenceSegmentUntil m req.collectionID ts false).after
          req.collectionID := by
      rw [hfence]
      exact le_trans htt (le_max_right _ _)
    exact assign_fenced hc1 hp hw1 hf1

/-- Witness for C1: on the clean base state, a cancelled fence call at
timestamp 20 leaves the fence up and the assignment at time-tick 20 for
collection 1 fenced. -/
theorem fence_raised_on_cancel_spec_witness :
    (SealAndFenceSegmentUntil cleanBase 1 20 false).ids = [] ∧
    (SealAndFenceSegmentUntil cleanBase 1 20 false).err =
      some SealError.deadlineExceeded ∧
    20 ≤ fenceOf (SealAndFenceSegmentUntil cleanBase 1 20 false).after 1 ∧
    AssignSegment (SealAndFenceSegmentUntil cleanBase 1 20 false).after (mbReq 20) =
      Except.error AssignError.errFencedAssign :=
  fence_raised_on_cancel_spec cleanBase 20 (mbReq 20) [1, 2, 3]
    (by decide) (by decide) (by decide) (by decide)

/-- Operation `AssignSegment` rejects a request whose binary size alone exceeds
`MaxBinarySize` with `ErrTooLargeInsert` (once the earlier collection,
partition, watermark and fence checks pass). -/
theorem assign_too_large {m : PChannelManager} {req : AssignSegmentRequest} {pids : List Nat}
    (hc : alookup m.collections req.collectionID = some pids)
    (hp : req.partitionID ∈ pids)
    (hw : ¬ req.timeTick < m.watermark)
    (hf : fenceOf m req.collectionID < req.timeTick)
    (hbig : m.cfgMaxBinarySize < req.binarySize) :
    AssignSegment m req = Except.error AssignError.errTooLargeInsert := by
  unfold AssignSegment
  simp only [hc]
  rw [if_pos hp, if_neg hw, if_neg (by omega), if_pos hbig]

/-- C5: an `AssignSegment` request whose binary size alone exceeds
`MaxBinarySize` returns `ErrTooLargeInsert`, and `handleInsertMessage`
surfaces it as the unrecoverable status carrying the message size — not as
the redo sentinel — leaving the manager untouched. -/
theorem too_large_insert_unrecoverable_spec (m : PChannelManager) (msg : Message)
    (appendOp : Message → Except InterceptError Nat) (txn : Option Nat)
    (p : InsertPartition) (rest : List InsertPartition) (pids : List Nat)
    (hparts : msg.partitions = p :: rest)
    (hc : alookup m.collections msg.collectionID = some pids)
    (hp : p.partitionID ∈ pids)
    (hw : m.watermark ≤ msg.timeTick)
    (hf : fenceOf m msg.collectionID < msg.timeTick)
    (hbig : m.cfgMaxBinarySize < msg.estimateSize) :
    AssignSegment m (reqForPartition msg p txn) =
      Except.error AssignError.errTooLargeInsert ∧
    handleInsertMessage m msg appendOp txn =
      (Except.error (InterceptError.unrecoverable msg.estimateSize), m) := by
  have ha : AssignSegment m (reqForPartition msg p txn) =
      Except.error AssignError.errTooLargeInsert :=
    assign_too_large hc hp
      (by show ¬ msg.timeTick < m.watermark; omega)
      (by show fenceOf m msg.collectionID < msg.timeTick; exact hf)
      (by show m.cfgMaxBinarySize < msg.estimateSize; exact hbig)
  refine ⟨ha, ?_⟩
  unfold handleInsertMessage
  rw [hparts]
  simp only [insertLoop, ha]
  rfl

/-- The insert message of the too-large witness: one partition, estimated
size 2000000 bytes against the 1 MB config. -/
def tooBigMsg : Message :=
  { msgType := MessageType.insert
    collectionID := 1
    createPartitionIDs := []
    partitionID := 0
    partitions := [{ partitionID := 1, rows := 5, segmentAssignment := none }]
    flushTs := 0
    timeTick := 10
    estimateSize := 2000000
    vchannel := "v1" }

/-- An append operation that always succeeds with message id 0. -/
def okOp : Message → Except InterceptError Nat := fun _ => Except.ok 0

/-- Witness for C5: on the clean base state, the 2000000-byte insert is
rejected as unrecoverable. -/
theorem too_large_insert_unrecoverable_spec_witness :
    AssignSegment cleanBase
        (reqForPartition tooBigMsg { partitionID := 1, rows := 5, segmentAssignment := none }
          none) =
      Except.error AssignError.errTooLargeInsert ∧
    handleInsertMessage cleanBase tooBigMsg okOp none =
      (Except.error (InterceptError.unrecoverable tooBigMsg.estimateSize), cleanBase) :=
  too_large_insert_unrecoverable_spec cleanBase tooBigMsg okOp none
    { partitionID := 1, rows := 5, segmentAssignment := none } [] [1, 2, 3]
    (by decide) (by decide) (by decide) (by decide) (by decide) (by decide)

/-- Acking one result does not change any segment's charged binary size. -/
theorem segInserted_ackOne (m : PChannelManager) (sid sid2 : Nat) :
    segInserted (ackOne m sid2) sid = segInserted m sid := by
  unfold segInserted
  have h : getSeg (ackOne m sid2) sid =
      (getSeg m sid).map (fun s =>
        if s.segmentID = sid2 then { s with outstanding := s.outstanding - 1 } else s) := by
    unfold ackOne getSeg updateSegment
    exact find?_map_pres _ sid (fun s => by split <;> rfl) m.segments
  rw [h]
  cases getSeg m sid with
  | none => rfl
  | some s =>
    simp only [Option.map_some']
    split <;> rfl

/-- C6: when a two-partition insert obtains an assignment for the first
partition and then fails on the second (or the final append fails), the
first assignment is not rolled back: the handler's final state is exactly
the post-assignment state with the deferred acks applied, and the charged
binary size of the assigned segment is unchanged by that ack. -/
theorem no_partial_rollback_spec :
    (∀ (m m1 : PChannelManager) (msg : Message)
      (appendOp : Message → Except InterceptError Nat) (txn : Option Nat)
      (p1 p2 : InsertPartition) (a1 : AssignSegmentResult) (e : AssignError),
      msg.partitions = [p1, p2] →
      AssignSegment m (reqForPartition msg p1 txn) = Except.ok (a1, m1) →
      AssignSegment m1 (reqForPartition msg p2 txn) = Except.error e →
      (handleInsertMessage m msg appendOp txn).2 = ackOne m1 a1.segmentID ∧
      segInserted (handleInsertMessage m msg appendOp txn).2 a1.segmentID =
        segInserted m1 a1.segmentID) ∧
    (∀ (m m1 m2 : PChannelManager) (msg : Message)
      (appendOp : Message → Except InterceptError Nat) (txn : Option Nat)
      (p1 p2 : InsertPartition) (a1 a2 : AssignSegmentResult),
      msg.partitions = [p1, p2] →
      AssignSegment m (reqForPartition msg p1 txn) = Except.ok (a1, m1) →
      AssignSegment m1 (reqForPartition msg p2 txn) = Except.ok (a2, m2) →
      appendOp { msg with partitions :=
          [{ p1 with segmentAssignment := some a1.segmentID },
           { p2 with segmentAssignment := some a2.segmentID }] } =
        Except.error InterceptError.appendErr →
      (handleInsertMessage m msg appendOp txn).2 =
        ackAll m2 [a1.segmentID, a2.segmentID]) := by
  constructor
  · intro m m1 msg appendOp txn p1 p2 a1 e hparts h1 h2
    have hstate : (handleInsertMessage m msg appendOp txn).2 = ackOne m1 a1.segmentID := by
      unfold handleInsertMessage
      rw [hparts]
      simp only [insertLoop, h1, h2]
      cases e <;> rfl
    refine ⟨hstate, ?_⟩
    rw [hstate]
    exact segInserted_ackOne m1 a1.segmentID a1.segmentID
  · intro m m1 m2 msg appendOp txn p1 p2 a1 a2 hparts h1 h2 hop
    unfold handleInsertMessage
    rw [hparts]
    simp only [insertLoop, h1, h2]

/-- Two-partition insert whose second partition (99) does not exist. -/
def msgA : Message :=
  { msgType := MessageType.insert
    collectionID := 1
    createPartitionIDs := []
    partitionID := 0
    partitions :=
      [ { partitionID := 1, rows := 5, segmentAssignment := none }
      , { partitionID := 99, rows := 5, segmentAssignment := none } ]
    flushTs := 0
    timeTick := 10
    estimateSize := 100
    vchannel := "v1" }

/-- State after the first partition of `msgA` obtained its assignment. -/
def msgAM1 : PChannelManager :=
  assignState cleanBase
    (AssignSegment cleanBase
      (reqForPartition msgA { partitionID := 1, rows := 5, segmentAssignment := none } none))

/-- Two-partition insert whose partitions both exist. -/
def msgB : Message :=
  { msgA with partitions :=
      [ { partitionID := 1, rows := 5, segmentAssignment := none }
      , { partitionID := 2, rows := 5, segmentAssignment := none } ] }

/-- State after the first partition of `msgB` obtained its assignment. -/
def msgBM1 : PChannelManager :=
  assignState cleanBase
    (AssignSegment cleanBase
      (reqForPartition msgB { partitionID := 1, rows := 5, segmentAssignment := none } none))

/-- State after the second partition of `msgB` obtained its assignment. -/
def msgBM2 : PChannelManager :=
  assignState msgBM1
    (AssignSegment msgBM1
      (reqForPartition msgB { partitionID := 2, rows := 5, segmentAssignment := none } none))

/-- An append operation that always fails. -/
def failOp : Message → Except InterceptError Nat := fun _ => Except.error InterceptError.appendErr

/-- Witness for C6: the concrete two-partition scenarios, one failing on
the unknown partition 99 and one failing at the append. -/
theorem no_partial_rollback_spec_witness :
    ((handleInsertMessage cleanBase msgA failOp none).2 = ackOne msgAM1 1 ∧
      segInserted (handleInsertMessage cleanBase msgA failOp none).2 1 =
        segInserted msgAM1 1) ∧
    (handleInsertMessage cleanBase msgB failOp none).2 = ackAll msgBM2 [1, 2] :=
  ⟨no_partial_rollback_spec.1 cleanBase msgAM1 msgA failOp none
      { partitionID := 1, rows := 5, segmentAssignment := none }
      { partitionID := 99, rows := 5, segmentAssignment := none }
      ⟨1⟩ AssignError.errPartitionNotFound rfl (by decide) (by decide),
    no_partial_rollback_spec.2 cleanBase msgBM1 msgBM2 msgB failOp none
      { partitionID := 1, rows := 5, segmentAssignment := none }
      { partitionID := 2, rows := 5, segmentAssignment := none }
      ⟨1⟩ ⟨2⟩ rfl (by decide) (by decide) (by decide)⟩

/-- C7: for a manual flush message whose fence drain completes, the sealed
segment ids are accumulated into the `ManualFlushExtraResponse` (appended
to any previously recorded ids), and when that id list is non-empty the
handler returns the redo sentinel without appending the manual flush
message. -/
theorem manual_flush_accumulate_redo_spec (m : PChannelManager) (msg : Message)
    (extra : Option (List Nat)) (appendOp : Message → Except InterceptError Nat) :
    (handleManualFlushMessage m msg extra appendOp true).2.2.1 =
      some (extra.getD [] ++
        (SealAndFenceSegmentUntil m msg.collectionID msg.flushTs true).ids) ∧
    ((SealAndFenceSegmentUntil m msg.collectionID msg.flushTs true).ids ≠ [] →
      handleManualFlushMessage m msg extra appendOp true =
        (Except.error InterceptError.redo,
          (SealAndFenceSegmentUntil m msg.collectionID msg.flushTs true).after,
          some (extra.getD [] ++
            (SealAndFenceSegmentUntil m msg.collectionID msg.flushTs true).ids),
          false)) := by
  have key : handleManualFlushMessage m msg extra appendOp true =
      (if 0 < (SealAndFenceSegmentUntil m msg.collectionID msg.flushTs true).ids.length then
        (Except.error InterceptError.redo,
          (SealAndFenceSegmentUntil m msg.collectionID msg.flushTs true).after,
          some (match extra with
            | none => (SealAndFenceSegmentUntil m msg.collectionID msg.flushTs true).ids
            | some l => l ++ (SealAndFenceSegmentUntil m msg.collectionID msg.flushTs true).ids),
          false)
      else
        (appendOp msg,
          (SealAndFenceSegmentUntil m msg.collectionID msg.flushTs true).after,
          some (match extra with
            | none => (SealAndFenceSegmentUntil m msg.collectionID msg.flushTs true).ids
            | some l => l ++ (SealAndFenceSegmentUntil m msg.collectionID msg.flushTs true).ids),
          true)) := rfl
  rw [key]
  constructor
  · split
    · cases extra <;> simp
    · cases extra <;> simp
  · intro hne
    rw [if_pos (List.length_pos.mpr hne)]
    cases extra <;> simp

/-- The manual flush message of the C7 witness: collection 1 at flush
timestamp 15. -/
def flushMsg : Message :=
  { msgType := MessageType.manualFlush
    collectionID := 1
    createPartitionIDs := []
    partitionID := 0
    partitions := []
    flushTs := 15
    timeTick := 15
    estimateSize := 0
    vchannel := "v1" }

/-- Witness for C7: on the state holding the growing segment 1 (created at
time-tick 10 ≤ 15), the fence seals it, the ids accumulate after the
previously recorded id 42, and the handler redoes instead of appending. -/
theorem manual_flush_accumulate_redo_spec_witness :
    handleManualFlushMessage capM1 flushMsg (some [42]) okOp true =
      (Except.error InterceptError.redo,
        (SealAndFenceSegmentUntil capM1 flushMsg.collectionID flushMsg.flushTs true).after,
        some ((some [42]).getD [] ++
          (SealAndFenceSegmentUntil capM1 flushMsg.collectionID flushMsg.flushTs true).ids),
        false) :=
  (manual_flush_accumulate_redo_spec capM1 flushMsg (some [42]) okOp).2 (by decide)

/-- The backoff waits emitted by `k` consecutive failed attempts starting
at attempt number `n`: the j-th failure waits `backoffInterval (n + j)`. -/
def waitsFrom (n : Nat) : Nat → List RecoverEvent
  | 0 => []
  | k + 1 => RecoverEvent.wait (backoffInterval n) :: waitsFrom (n + 1) k

/-- C9: the recovery loop backs off 10 ms initially, doubling up to the
1 s cap, and keeps retrying until recovery succeeds — in which case it
registers the manager with the global seal inspector and only then
publishes it — or the interceptor's context is cancelled — in which case
it publishes nil and stops. -/
theorem recover_backoff_spec :
    backoffInterval 0 = 10 ∧
    (∀ n, backoffInterval (n + 1) = min (2 * backoffInterval n) 1000) ∧
    (∀ n, backoffInterval n ≤ 1000) ∧
    (∀ (k n : Nat) (attempts : Nat → Bool),
      (∀ j, j < k → attempts (n + j) = false) → attempts (n + k) = true →
      recoverLoop attempts none (k + 1) n =
        waitsFrom n k ++ [RecoverEvent.register, RecoverEvent.publish]) ∧
    (∀ (k n : Nat) (attempts : Nat → Bool),
      (∀ j, j < k → attempts (n + j) = false) → attempts (n + k) = false →
      recoverLoop attempts (some (n + k)) (k + 1) n =
        waitsFrom n k ++ [RecoverEvent.publishNil]) := by
  refine ⟨by decide, ?_, ?_, ?_, ?_⟩
  · intro n
    have h2 : backoffInterval (n + 1) = min (2 * (10 * 2 ^ n)) 1000 := by
      unfold backoffInterval
      congr 1
      ring
    rw [h2, backoffInterval]
    generalize 10 * 2 ^ n = a
    omega
  · intro n
    unfold backoffInterval
    exact min_le_right _ _
  · intro k
    induction k with
    | zero =>
      intro n attempts hfail hs
      have h : attempts n = true := by simpa using hs
      simp [recoverLoop, h, waitsFrom]
    | succ k ih =>
      intro n attempts hfail hs
      have h0 : attempts n = false := by simpa using hfail 0 (by omega)
      have hr := ih (n + 1) attempts
        (fun j hj => by
          have h2 := hfail (j + 1) (by omega)
          rw [show n + 1 + j = n + (j + 1) from by omega]
          exact h2)
        (by rw [show n + 1 + k = n + (k + 1) from by omega]; exact hs)
      have step : recoverLoop attempts none (k + 1 + 1) n =
          RecoverEvent.wait (backoffInterval n) :: recoverLoop attempts none (k + 1) (n + 1) := by
        simp [recoverLoop, h0]
      rw [step, hr]
      simp [waitsFrom]
  · intro k
    induction k with
    | zero =>
      intro n attempts hfail hs
      have h : attempts n = false := by simpa using hs
      simp [recoverLoop, h, waitsFrom]
    | succ k ih =>
      intro n attempts hfail hs
      have h0 : attempts n = false := by simpa using hfail 0 (by omega)
      have hr := ih (n + 1) attempts
        (fun j hj => by
          have h2 := hfail (j + 1) (by omega)
          rw [show n + 1 + j = n + (j + 1) from by omega]
          exact h2)
        (by rw [show n + 1 + k = n + (k + 1) from by omega]; exact hs)
      have hc : ¬ ((some (n + (k + 1)) : Option Nat) = some n) := by
        intro hcc
        injection hcc with hcc
        omega
      have step : recoverLoop attempts (some (n + (k + 1))) (k + 1 + 1) n =
          RecoverEvent.wait (backoffInterval n) ::
            recoverLoop attempts (some (n + (k + 1))) (k + 1) (n + 1) := by
        simp [recoverLoop, h0, hc]
      rw [step, show n + (k + 1) = n + 1 + k from by omega, hr]
      simp [waitsFrom]

/-- Witness for C9: with recovery succeeding at the third attempt, the
trace waits 10 ms then 20 ms, registers, then publishes; with the context
cancelled during the third backoff wait, the trace ends in the nil
publication. -/
theorem recover_backoff_spec_witness :
    recoverLoop (fun i => decide (2 ≤ i)) none 3 0 =
      waitsFrom 0 2 ++ [RecoverEvent.register, RecoverEvent.publish] ∧
    recoverLoop (fun _ => false) (some 2) 3 0 =
      waitsFrom 0 2 ++ [RecoverEvent.publishNil] :=
  ⟨recover_backoff_spec.2.2.2.1 2 0 (fun i => decide (2 ≤ i))
      (by intro j hj; simp; omega) (by simp),
    recover_backoff_spec.2.2.2.2 2 0 (fun _ => false)
      (by intro j hj; rfl) rfl⟩

/-- C10: a message of any type other than the six handled ones is forwarded
unchanged by `DoAppend`: the result is exactly the underlying append
operation's result and the manager and extra response are untouched. -/
theorem doappend_default_passthrough_spec (m : PChannelManager) (msg : Message)
    (appendOp : Message → Except InterceptError Nat) (txn : Option Nat)
    (extra : Option (List Nat)) (drainCompletes : Bool)
    (h : handledBySegmentInterceptor msg.msgType = false) :
    DoAppend m msg appendOp txn extra drainCompletes = (appendOp msg, m, extra) := by
  unfold DoAppend
  cases htype : msg.msgType <;>
    simp_all [handledBySegmentInterceptor]

/-- A time-tick message, untouched by the segment interceptor. -/
def ttMsg : Message :=
  { msgType := MessageType.timeTick
    collectionID := 0
    createPartitionIDs := []
    partitionID := 0
    partitions := []
    flushTs := 0
    timeTick := 3
    estimateSize := 0
    vchannel := "v1" }

/-- Witness for C10: the time-tick message passes straight through. -/
theorem doappend_default_passthrough_spec_witness :
    DoAppend freshManager ttMsg okOp none none true = (okOp ttMsg, freshManager, none) :=
  doappend_default_passthrough_spec freshManager ttMsg okOp none none true (by decide)

/-- Witness for C3: the final observation of the capacity scenario. -/
theorem capacity_seal_scenario_spec_witness : IsNoWaitSeal capM5 = true :=
  capacity_seal_scenario_spec.2.2.2.2
